import Mathlib

/-!
Verification development for the `roger` CLI (src/roger/roger.py), a
command-line client for the Jeannie controller REST API.  The Python
source is shallowly embedded: JSON values become an inductive type,
Python dicts become association lists, the HTTP layer is abstracted as
an outcome parameter, and the presentation layer (`main` dispatch plus
`RogerCLI.print_response`) becomes a pure function from the parsed
command, the response envelope and the raw flag to the produced output
and exit code.  Operations that Python would abort with an uncaught
exception are modelled as `Option`, with `none` marking the fault.
-/

namespace Roger

/-- JSON values as produced by `json.loads`: objects are association
lists preserving insertion order, numbers are modelled as rationals. -/
inductive Json where
  | null
  | bool (b : Bool)
  | num (q : ℚ)
  | str (s : String)
  | arr (xs : List Json)
  | obj (fields : List (String × Json))
deriving Inhabited

/-- Lookup of a key in a Python dict, modelled on the association list:
first binding wins (dict keys are unique). Models `d.get(k)` / `k in d`. -/
def lookupField : List (String × Json) → String → Option Json
  | [], _ => none
  | (k, v) :: rest, key => if k = key then some v else lookupField rest key

/-- Assignment `d[k] = v` on a Python dict: replaces the value in place
when the key exists (keeping its position), appends otherwise. -/
def setField : List (String × Json) → String → Json → List (String × Json)
  | [], key, v => [(key, v)]
  | (k, w) :: rest, key, v =>
      if k = key then (key, v) :: rest else (k, w) :: setField rest key v

/-- Python truthiness of a JSON value: `None`, `False`, `0`, the empty
string, the empty list and the empty dict are falsy. -/
def Json.truthy : Json → Bool
  | .null => false
  | .bool b => b
  | .num q => if q = 0 then false else true
  | .str s => if s = "" then false else true
  | .arr xs => match xs with | [] => false | _ => true
  | .obj fs => match fs with | [] => false | _ => true

/-- Whether a JSON value is an object (a Python dict). -/
def Json.isObj : Json → Bool
  | .obj _ => true
  | _ => false

/-- A response envelope: the dict parsed from the service response.
The remote service is trusted to produce the dict shape. -/
abbrev Envelope := List (String × Json)

/-- Truthiness of `response.get('success')`. -/
def envSuccess (e : Envelope) : Bool :=
  ((lookupField e "success").getD .null).truthy

/-! ## Request client (`RogerCLI._make_request`, lines 48-72)

The network exchange itself is abstracted as an `HttpOutcome`: either
the HTTP call succeeded and the body parsed as JSON, or
`urllib.error.URLError` was raised with a reason, or some other
exception was raised with a message.  The `try`/`except` structure of
`_make_request` maps each outcome to the returned envelope. -/

/-- Possible outcomes of the guarded block of `_make_request`. -/
inductive HttpOutcome where
  | success (body : Json)
  | connectionFailure (reason : String)
  | otherFailure (message : String)

/-- Model of `RogerCLI._make_request`: the endpoint, method and body
determine the request; the outcome of the exchange determines the
returned value.  Matches lines 48-72 of roger.py, with both `except`
arms producing the local failure envelope. -/
def make_request (endpoint method : String) (data : Option Json)
    (outcome : HttpOutcome) (now : String) : Json :=
  match endpoint, method, data, outcome with
  | _, _, _, .success body => body
  | _, _, _, .connectionFailure reason =>
      .obj [("success", .bool false),
            ("error", .str ("Failed to connect to Jeannie API: " ++ reason)),
            ("timestamp", .str now)]
  | _, _, _, .otherFailure message =>
      .obj [("success", .bool false),
            ("error", .str ("Request failed: " ++ message)),
            ("timestamp", .str now)]

/-! ## Version augmentation (`RogerCLI.version`, lines 82-88)

After fetching `/api/version`, the method runs
`if result.get('success') and 'data' in result: result['data']['roger'] = self.version`.
The item assignment `result['data']['roger'] = ...` raises `TypeError`
when `result['data']` is not a dict; that fault is modelled as `none`. -/

/-- Model of the post-processing in `RogerCLI.version`, applied to the
envelope dict returned by `_make_request`. -/
def version_augment (roger_version : String) (result : Envelope) : Option Envelope :=
  if ((lookupField result "success").getD .null).truthy
      && (lookupField result "data").isSome then
    match lookupField result "data" with
    | some (.obj data_fields) =>
        some (setField result "data"
          (.obj (setField data_fields "roger" (.str roger_version))))
    | _ => none
  else
    some result

/-! ## Query strings (`urllib.parse.urlencode` with `quote_plus`)

`urlencode` renders each key/value pair as `quote_plus(k) ++ "=" ++
quote_plus(v)` and joins the pairs with `&`.  `quote_plus` keeps ASCII
letters, digits and `_.-~`, maps space to `+`, and percent-encodes the
UTF-8 bytes of every other character with uppercase hex. -/

/-- UTF-8 bytes of a character, as natural numbers below 256. -/
def utf8Bytes (c : Char) : List Nat :=
  let n := c.toNat
  if n < 0x80 then [n]
  else if n < 0x800 then [0xC0 + n / 0x40, 0x80 + n % 0x40]
  else if n < 0x10000 then
    [0xE0 + n / 0x1000, 0x80 + (n / 0x40) % 0x40, 0x80 + n % 0x40]
  else
    [0xF0 + n / 0x40000, 0x80 + (n / 0x1000) % 0x40,
     0x80 + (n / 0x40) % 0x40, 0x80 + n % 0x40]

/-- One uppercase hexadecimal digit. -/
def hexDigitUpper (n : Nat) : Char :=
  if n < 10 then Char.ofNat (48 + n) else Char.ofNat (65 + (n - 10))

/-- Two-digit uppercase hexadecimal rendering of a byte. -/
def hexByteUpper (n : Nat) : String :=
  String.mk [hexDigitUpper (n / 16), hexDigitUpper (n % 16)]

/-- Characters `urllib.parse.quote` never encodes (its ALWAYS_SAFE set):
ASCII letters, digits, and underscore, dot, dash, tilde. -/
def isAlwaysSafe (c : Char) : Bool :=
  c.isAlpha || c.isDigit || c = '_' || c = '.' || c = '-' || c = '~'

/-- Encoding of a single character under `quote_plus`. -/
def quotePlusChar (c : Char) : String :=
  if isAlwaysSafe c then String.mk [c]
  else if c = ' ' then "+"
  else String.join ((utf8Bytes c).map (fun b => "%" ++ hexByteUpper b))

/-- Model of `urllib.parse.quote_plus` on a string. -/
def quotePlus (s : String) : String :=
  String.join (s.data.map quotePlusChar)

/-- Python `sep.join(parts)`. -/
def joinWith (sep : String) : List String → String
  | [] => ""
  | [x] => x
  | x :: y :: rest => x ++ sep ++ joinWith sep (y :: rest)

/-- Model of `urllib.parse.urlencode` over the ordered key/value pairs
of the params dict. -/
def urlencode (params : List (String × String)) : String :=
  joinWith "&" (params.map (fun p => quotePlus p.1 ++ "=" ++ quotePlus p.2))

/-- Optional query parameter: `if value: params[key] = value` on an
`Optional[str]` argument (Python truthiness: `None` and the empty
string are both falsy). -/
def optParam (key : String) : Option String → List (String × String)
  | none => []
  | some v => if v = "" then [] else [(key, v)]

/-- Whether an optional string argument is given and non-empty, i.e.
truthy in Python. -/
def isGiven : Option String → Bool
  | none => false
  | some v => if v = "" then false else true

/-- Params dict built by `RogerCLI.content_search` (lines 96-110), in
insertion order. -/
def content_search_params (query : String) (fuzzy : Bool)
    (content_type creator category : Option String) (limit : Int) :
    List (String × String) :=
  [("q", query), ("limit", toString limit)]
    ++ (if fuzzy then [("fuzzy", "true")] else [])
    ++ optParam "type" content_type
    ++ optParam "creator" creator
    ++ optParam "category" category

/-- Endpoint requested by `RogerCLI.content_search` (line 111). -/
def content_search_endpoint (query : String) (fuzzy : Bool)
    (content_type creator category : Option String) (limit : Int) : String :=
  "/api/content/search?"
    ++ urlencode (content_search_params query fuzzy content_type creator category limit)

/-- Params dict built by `RogerCLI.content_list` (lines 113-124), in
insertion order. -/
def content_list_params (content_type creator category : Option String)
    (limit offset : Int) : List (String × String) :=
  [("limit", toString limit), ("offset", toString offset)]
    ++ optParam "type" content_type
    ++ optParam "creator" creator
    ++ optParam "category" category

/-- Endpoint requested by `RogerCLI.content_list` (line 125). -/
def content_list_endpoint (content_type creator category : Option String)
    (limit offset : Int) : String :=
  "/api/content?"
    ++ urlencode (content_list_params content_type creator category limit offset)

/-- Number of pairs of a params list carrying a given key. -/
def countKey (key : String) (params : List (String × String)) : Nat :=
  params.countP (fun p => p.1 = key)

/-! ## Track request bodies (`RogerCLI.track_*`) -/

/-- Body of the POST issued by `RogerCLI.track_create` (lines 161-167):
`{'type': ..., 'position': ...}` plus `name` when truthy. -/
def track_create_data (track_type : String) (name : Option String)
    (position : Int) : List (String × Json) :=
  [("type", .str track_type), ("position", .num position)]
    ++ (match name with
        | none => []
        | some n => if n = "" then [] else [("name", .str n)])

/-- Body of the POST issued by `RogerCLI.track_volume` (line 191). -/
def track_volume_data (volume : ℚ) : List (String × Json) :=
  [("volume", .num volume)]

/-- Body of the POST issued by `RogerCLI.track_pan` (line 195). -/
def track_pan_data (pan : ℚ) : List (String × Json) :=
  [("pan", .num pan)]

/-! ## Local normalization in `main` (volume lines 601-609, pan 613-623) -/

/-- Python `int()` on a rational: truncation toward zero. -/
def pyInt (q : ℚ) : Int :=
  if q < 0 then -⌊-q⌋ else ⌊q⌋

/-- Volume normalization in the `track volume` branch of `main`:
values above 1.0 are treated as percentages, then the result is
clamped to the unit interval. -/
def normalize_volume (value : ℚ) : ℚ :=
  let volume := if value > 1 then value / 100 else value
  max 0 (min 1 volume)

/-- Pan normalization in the `track pan` branch of `main`. -/
def normalize_pan (value : ℚ) : ℚ :=
  max (-1) (min 1 value)

/-- Confirmation label computed in the `track pan` branch (617-622). -/
def pan_label (pan : ℚ) : String :=
  if pan = 0 then "center"
  else if pan < 0 then toString (pyInt (|pan| * 100)) ++ "% left"
  else toString (pyInt (pan * 100)) ++ "% right"

/-! ## Rendering of JSON values

`json.dumps(..., indent=2)` and the Python `str()`/`repr()` used by the
f-strings of the formatted output.  Numeric values are modelled as
rationals; integers render like Python ints, and the decimal rendering
of non-integer numbers is abstracted as `num/den` (no claim depends on
it). -/

/-- Rendering of a JSON number. -/
def ratRepr (q : ℚ) : String :=
  if q.den = 1 then toString q.num
  else toString q.num ++ "/" ++ toString q.den

/-- One lowercase hexadecimal digit. -/
def hexDigitLower (n : Nat) : Char :=
  if n < 10 then Char.ofNat (48 + n) else Char.ofNat (97 + (n - 10))

/-- Four-digit lowercase hexadecimal rendering, for `\uXXXX` escapes. -/
def hexWordLower (n : Nat) : String :=
  String.mk [hexDigitLower (n / 0x1000 % 16), hexDigitLower (n / 0x100 % 16),
             hexDigitLower (n / 16 % 16), hexDigitLower (n % 16)]

/-- Escape of one character inside a JSON string literal, following
`json.dumps` with its default `ensure_ascii=True`: printable ASCII is
kept, the quote and backslash get two-character escapes along with the
usual control shorthands, and everything else becomes `\uXXXX`
(a surrogate pair above the BMP). -/
def jsonEscapeChar (c : Char) : String :=
  if c = '"' then "\\\""
  else if c = '\\' then "\\\\"
  else if c = '\n' then "\\n"
  else if c = '\r' then "\\r"
  else if c = '\t' then "\\t"
  else if c.toNat = 8 then "\\b"
  else if c.toNat = 12 then "\\f"
  else if 0x20 ≤ c.toNat && c.toNat ≤ 0x7E then String.mk [c]
  else if c.toNat < 0x10000 then "\\u" ++ hexWordLower c.toNat
  else
    let n := c.toNat - 0x10000
    "\\u" ++ hexWordLower (0xD800 + n / 0x400) ++ "\\u" ++ hexWordLower (0xDC00 + n % 0x400)

/-- JSON string literal with quotes and escapes. -/
def jsonQuote (s : String) : String :=
  "\"" ++ String.join (s.data.map jsonEscapeChar) ++ "\""

/-- Indentation prefix of a given width. -/
def spaces (n : Nat) : String :=
  String.mk (List.replicate n ' ')

mutual

/-- Model of `json.dumps(value, indent=2)` at a given current indent:
objects and arrays put every element on its own line, two spaces deeper,
with item separator a comma and key separator a colon-space. -/
def dumps (indent : Nat) : Json → String
  | .null => "null"
  | .bool true => "true"
  | .bool false => "false"
  | .num q => ratRepr q
  | .str s => jsonQuote s
  | .arr [] => "[]"
  | .arr (x :: xs) =>
      "[\n" ++ dumpsItems (indent + 2) (x :: xs) ++ "\n" ++ spaces indent ++ "]"
  | .obj [] => "\x7b\x7d"
  | .obj (f :: fs) =>
      "\x7b\n" ++ dumpsFields (indent + 2) (f :: fs) ++ "\n" ++ spaces indent ++ "\x7d"

/-- Comma-and-newline separated array items, each indented. -/
def dumpsItems (indent : Nat) : List Json → String
  | [] => ""
  | [x] => spaces indent ++ dumps indent x
  | x :: y :: rest =>
      spaces indent ++ dumps indent x ++ ",\n" ++ dumpsItems indent (y :: rest)

/-- Comma-and-newline separated object entries, each indented. -/
def dumpsFields (indent : Nat) : List (String × Json) → String
  | [] => ""
  | [(k, v)] => spaces indent ++ jsonQuote k ++ ": " ++ dumps indent v
  | (k, v) :: f :: rest =>
      spaces indent ++ jsonQuote k ++ ": " ++ dumps indent v ++ ",\n"
        ++ dumpsFields indent (f :: rest)

end

mutual

/-- Python `repr()` of a JSON value: `None`, `True`, `False`, quoted
strings, bracketed lists and braced dicts (string escaping inside
`repr` is abstracted to plain quotes; no claim depends on it). -/
def pyRepr : Json → String
  | .null => "None"
  | .bool true => "True"
  | .bool false => "False"
  | .num q => ratRepr q
  | .str s => "\x27" ++ s ++ "\x27"
  | .arr xs => "[" ++ pyReprItems xs ++ "]"
  | .obj fs => "\x7b" ++ pyReprFields fs ++ "\x7d"

/-- Comma-separated `repr` items of a list. -/
def pyReprItems : List Json → String
  | [] => ""
  | [x] => pyRepr x
  | x :: y :: rest => pyRepr x ++ ", " ++ pyReprItems (y :: rest)

/-- Comma-separated `repr` entries of a dict. -/
def pyReprFields : List (String × Json) → String
  | [] => ""
  | [(k, v)] => "\x27" ++ k ++ "\x27: " ++ pyRepr v
  | (k, v) :: f :: rest => "\x27" ++ k ++ "\x27: " ++ pyRepr v ++ ", " ++ pyReprFields (f :: rest)

end

/-- Python `str()` of a JSON value, as interpolated by the f-strings of
the formatted output: a string renders as itself, everything else via
`repr`. -/
def pyStr : Json → String
  | .str s => s
  | .null => pyRepr .null
  | .bool b => pyRepr (.bool b)
  | .num q => pyRepr (.num q)
  | .arr xs => pyRepr (.arr xs)
  | .obj fs => pyRepr (.obj fs)

/-- Round-half-even to an integer, as Python float formatting does on
the exact value. -/
def roundHalfEven (q : ℚ) : Int :=
  let f := q.floor
  let frac := q - f
  if frac < 1/2 then f
  else if 1/2 < frac then f + 1
  else if f % 2 = 0 then f else f + 1

/-- Two-digit zero-padded rendering of a natural number below 100. -/
def pad2 (n : Nat) : String :=
  if n < 10 then "0" ++ toString n else toString n

/-- Model of the Python format spec `.2f` on a number (`f"[score:.2f]"`
in the search output): fixed two decimal places. -/
def formatFixed2 (q : ℚ) : String :=
  let n := roundHalfEven (q * 100)
  let sign := if n < 0 then "-" else ""
  let m := n.natAbs
  sign ++ toString (m / 100) ++ "." ++ pad2 (m % 100)

/-! ## Presentation (`RogerCLI.print_response` and the `main` dispatch)

The observable behaviour of one invocation, after the response envelope
for the dispatched command is in hand: the text written to standard
output, the text written to the error stream, and the process exit
status (1 when `sys.exit(1)` is reached, 0 when `main` runs to its
end).  `print(x)` appends `x ++ "\\n"`; `print(x, end=...)` appends `x`
followed by the given terminator.  Operations on which Python would
raise an uncaught exception (item access or iteration on a JSON value
of the wrong shape) make the modelled dispatch return `none`. -/

/-- Output of one invocation. -/
structure Output where
  stdout : String
  stderr : String
  exitCode : Nat
deriving DecidableEq

/-- Model of `RogerCLI.print_response` (lines 238-250). -/
def print_response (response : Envelope) (raw : Bool) : Output :=
  if raw then
    { stdout := dumps 0 (.obj response) ++ "\n", stderr := "", exitCode := 0 }
  else if envSuccess response then
    { stdout := "✓ Success\n"
        ++ (match lookupField response "data" with
            | some d => dumps 0 d ++ "\n"
            | none => ""),
      stderr := "", exitCode := 0 }
  else
    { stdout := "",
      stderr := "✗ Error: "
        ++ pyStr ((lookupField response "error").getD (.str "Unknown error")) ++ "\n",
      exitCode := 1 }

/-- Parsed commands of the CLI, with the arguments that influence
presentation.  `update-config` and the bare `content`/`track` help
displays perform no request and are outside this model. -/
inductive Cmd where
  | hello
  | health
  | version
  | config
  | contentSearch
  | contentList
  | contentStats
  | contentTypes
  | contentCreators
  | contentCategories
  | contentStatus
  | contentRescan
  | trackList
  | trackCurrent
  | trackCreate (track_type : String) (name : Option String)
  | trackSelect (index : Int)
  | trackNext
  | trackPrev
  | trackFirst
  | trackLast
  | trackRename (name : String)
  | trackMute (off : Bool)
  | trackSolo (off : Bool)
  | trackVolume (value : ℚ)
  | trackPan (value : ℚ)
  | trackDevice (device_id : String) (device_type : String)

/-- One line of the `content search` output (lines 417-425): fails when
the score value is not a number (Python would raise formatting it). -/
def searchResultLine (result : List (String × Json)) : Option String :=
  match (lookupField result "score").getD (.num 1) with
  | .num score =>
      let creator := (lookupField result "creator").getD (.str "")
      some ("  [" ++ formatFixed2 score ++ "] "
        ++ pyStr ((lookupField result "name").getD (.str "Unknown"))
        ++ " (" ++ pyStr ((lookupField result "contentType").getD (.str "Unknown")) ++ ")"
        ++ (if creator.truthy then " - " ++ pyStr creator else "")
        ++ "\n")
  | _ => none

/-- One line of the `content list` output (lines 440-447). -/
def listItemLine (item : List (String × Json)) : String :=
  let creator := (lookupField item "creator").getD (.str "")
  "  " ++ pyStr ((lookupField item "name").getD (.str "Unknown"))
    ++ " (" ++ pyStr ((lookupField item "contentType").getD (.str "Unknown")) ++ ")"
    ++ (if creator.truthy then " - " ++ pyStr creator else "")
    ++ "\n"

/-- One line of the `track list` output (lines 505-510). -/
def trackLine (track : List (String × Json)) : String :=
  "  " ++ pyStr ((lookupField track "index").getD (.str "?")) ++ ": "
    ++ (if ((lookupField track "muted").getD .null).truthy then "[M]" else "   ")
    ++ (if ((lookupField track "soloed").getD .null).truthy then "[S]" else "   ")
    ++ " " ++ pyStr ((lookupField track "name").getD (.str "Unnamed"))
    ++ "\n"

/-- Success-only output with exit status 0. -/
def outLines (s : String) : Output :=
  { stdout := s, stderr := "", exitCode := 0 }

/-- Model of the presentation performed by `main` (lines 377-632) for a
dispatched command, given the envelope its request returned and the
`--raw` flag. -/
def present (cmd : Cmd) (response : Envelope) (raw : Bool) : Option Output :=
  match cmd with
  | .hello => some (print_response response raw)
  | .health => some (print_response response raw)
  | .version => some (print_response response raw)
  | .config => some (print_response response raw)
  | .contentStats => some (print_response response raw)
  | .contentStatus => some (print_response response raw)
  | .contentRescan => some (print_response response raw)
  | .contentSearch =>
      if envSuccess response && (lookupField response "data").isSome then
        match lookupField response "data" with
        | some (.obj ds) =>
            match (lookupField ds "results").getD (.arr []) with
            | .arr rs =>
                match rs.mapM (fun r =>
                    match r with
                    | .obj rf => searchResultLine rf
                    | _ => none) with
                | some lines =>
                    some (outLines ("✓ Found "
                      ++ pyStr ((lookupField ds "total").getD (.num 0))
                      ++ " results for \x27"
                      ++ pyStr ((lookupField ds "query").getD .null)
                      ++ "\x27\n\n" ++ String.join lines))
                | none => none
            | _ => none
        | _ => none
      else some (print_response response raw)
  | .contentList =>
      if envSuccess response && (lookupField response "data").isSome then
        match lookupField response "data" with
        | some (.obj ds) =>
            match (lookupField ds "results").getD (.arr []) with
            | .arr rs =>
                match rs.mapM (fun r =>
                    match r with
                    | .obj rf => some (listItemLine rf)
                    | _ => none) with
                | some lines =>
                    some (outLines ("✓ "
                      ++ pyStr ((lookupField ds "total").getD (.num 0))
                      ++ " items (showing " ++ toString rs.length ++ ")\n\n"
                      ++ String.join lines))
                | none => none
            | _ => none
        | _ => none
      else some (print_response response raw)
  | .contentTypes =>
      if envSuccess response && (lookupField response "data").isSome then
        match lookupField response "data" with
        | some (.arr xs) =>
            some (outLines ("✓ Available content types:\n\n"
              ++ String.join (xs.map (fun x => "  - " ++ pyStr x ++ "\n"))))
        | _ => none
      else some (print_response response raw)
  | .contentCreators =>
      if envSuccess response && (lookupField response "data").isSome then
        match lookupField response "data" with
        | some (.arr xs) =>
            some (outLines ("✓ Available creators (" ++ toString xs.length ++ "):\n\n"
              ++ String.join ((xs.take 50).map (fun x => "  - " ++ pyStr x ++ "\n"))
              ++ (if xs.length > 50 then
                    "\n  ... and " ++ toString (xs.length - 50) ++ " more\n"
                  else "")))
        | _ => none
      else some (print_response response raw)
  | .contentCategories =>
      if envSuccess response && (lookupField response "data").isSome then
        match lookupField response "data" with
        | some (.arr xs) =>
            some (outLines ("✓ Available categories (" ++ toString xs.length ++ "):\n\n"
              ++ String.join ((xs.take 50).map (fun x => "  - " ++ pyStr x ++ "\n"))
              ++ (if xs.length > 50 then
                    "\n  ... and " ++ toString (xs.length - 50) ++ " more\n"
                  else "")))
        | _ => none
      else some (print_response response raw)
  | .trackList =>
      if envSuccess response && (lookupField response "data").isSome then
        match lookupField response "data" with
        | some (.obj ds) =>
            match (lookupField ds "tracks").getD (.arr []) with
            | .arr ts =>
                match ts.mapM (fun t =>
                    match t with
                    | .obj tf => some (trackLine tf)
                    | _ => none) with
                | some lines =>
                    some (outLines ("✓ " ++ toString ts.length
                      ++ " track(s) in project:\n\n" ++ String.join lines))
                | none => none
            | _ => none
        | _ => none
      else some (print_response response raw)
  | .trackCurrent =>
      if envSuccess response && (lookupField response "data").isSome then
        match lookupField response "data" with
        | some (.obj ds) =>
            some (outLines ("✓ Current track:\n"
              ++ "  Name: " ++ pyStr ((lookupField ds "name").getD (.str "Unknown")) ++ "\n"
              ++ "  Position: " ++ pyStr ((lookupField ds "position").getD (.str "?")) ++ "\n"
              ++ "  Muted: " ++ pyStr ((lookupField ds "muted").getD (.bool false)) ++ "\n"
              ++ "  Soloed: " ++ pyStr ((lookupField ds "soloed").getD (.bool false)) ++ "\n"))
        | _ => none
      else some (print_response response raw)
  | .trackCreate track_type name =>
      if envSuccess response then
        let track_name :=
          match name with
          | some n => if n = "" then "New " ++ track_type ++ " track" else n
          | none => "New " ++ track_type ++ " track"
        some (outLines ("✓ Created " ++ track_type ++ " track: " ++ track_name ++ "\n"))
      else some (print_response response raw)
  | .trackSelect index =>
      if envSuccess response && (lookupField response "data").isSome then
        match lookupField response "data" with
        | some (.obj ds) =>
            some (outLines ("✓ Selected track " ++ toString index ++ ": "
              ++ pyStr ((lookupField ds "name").getD (.str "Unknown")) ++ "\n"))
        | _ => none
      else some (print_response response raw)
  | .trackNext =>
      if envSuccess response && (lookupField response "data").isSome then
        match lookupField response "data" with
        | some (.obj ds) =>
            some (outLines ("✓ Moved to track: "
              ++ pyStr ((lookupField ds "name").getD (.str "Unknown")) ++ "\n"))
        | _ => none
      else some (print_response response raw)
  | .trackPrev =>
      if envSuccess response && (lookupField response "data").isSome then
        match lookupField response "data" with
        | some (.obj ds) =>
            some (outLines ("✓ Moved to track: "
              ++ pyStr ((lookupField ds "name").getD (.str "Unknown")) ++ "\n"))
        | _ => none
      else some (print_response response raw)
  | .trackFirst =>
      if envSuccess response && (lookupField response "data").isSome then
        match lookupField response "data" with
        | some (.obj ds) =>
            some (outLines ("✓ Moved to first track: "
              ++ pyStr ((lookupField ds "name").getD (.str "Unknown")) ++ "\n"))
        | _ => none
      else some (print_response response raw)
  | .trackLast =>
      if envSuccess response && (lookupField response "data").isSome then
        match lookupField response "data" with
        | some (.obj ds) =>
            some (outLines ("✓ Moved to last track: "
              ++ pyStr ((lookupField ds "name").getD (.str "Unknown")) ++ "\n"))
        | _ => none
      else some (print_response response raw)
  | .trackRename name =>
      if envSuccess response then
        some (outLines ("✓ Track renamed to: " ++ name ++ "\n"))
      else some (print_response response raw)
  | .trackMute off =>
      let mute_state := !off
      if envSuccess response then
        some (outLines ("✓ Track " ++ (if mute_state then "muted" else "unmuted") ++ "\n"))
      else some (print_response response raw)
  | .trackSolo off =>
      let solo_state := !off
      if envSuccess response then
        some (outLines ("✓ Track solo "
          ++ (if solo_state then "enabled" else "disabled") ++ "\n"))
      else some (print_response response raw)
  | .trackVolume value =>
      let volume := normalize_volume value
      if envSuccess response then
        some (outLines ("✓ Track volume set to " ++ toString (pyInt (volume * 100)) ++ "%\n"))
      else some (print_response response raw)
  | .trackPan value =>
      let pan := normalize_pan value
      if envSuccess response then
        some (outLines ("✓ Track pan set to " ++ pan_label pan ++ "\n"))
      else some (print_response response raw)
  | .trackDevice device_id device_type =>
      if envSuccess response then
        some (outLines ("✓ Device inserted: " ++ device_id ++ " (" ++ device_type ++ ")\n"))
      else some (print_response response raw)

/-! ## Substring search, used to state facts about rendered output -/

/-- Whether a character list begins with a given segment. -/
def startsWithSeg : List Char → List Char → Bool
  | _, [] => true
  | [], _ :: _ => false
  | c :: cs, p :: ps => c = p && startsWithSeg cs ps

/-- Whether a character list contains a given segment. -/
def containsSeg : List Char → List Char → Bool
  | [], part => startsWithSeg [] part
  | c :: cs, part => startsWithSeg (c :: cs) part || containsSeg cs part

/-- Whether a string contains a given substring. -/
def containsText (s sub : String) : Bool :=
  containsSeg s.data sub.data

end Roger

namespace Roger

/-! ## Helper lemmas -/

theorem pyStr_str (s : String) : pyStr (.str s) = s := rfl

theorem startsWithSeg_append (p r : List Char) : startsWithSeg (p ++ r) p = true := by
  induction p with
  | nil => simp [startsWithSeg]
  | cons c cs ih => simp [startsWithSeg, ih]

theorem startsWithSeg_self (l : List Char) : startsWithSeg l l = true := by
  simpa using startsWithSeg_append l []

theorem containsSeg_of_starts (hay part : List Char)
    (h : startsWithSeg hay part = true) : containsSeg hay part = true := by
  cases hay <;> simp [containsSeg, h]

theorem containsSeg_append_left (pre hay part : List Char)
    (h : containsSeg hay part = true) : containsSeg (pre ++ hay) part = true := by
  induction pre with
  | nil => simpa using h
  | cons c cs ih => simp [containsSeg, ih]

theorem mem_joinWith_contains (sep : String) (parts : List String) (p : String)
    (h : p ∈ parts) : containsText (joinWith sep parts) p = true := by
  induction parts with
  | nil => cases h
  | cons x rest ih =>
      cases rest with
      | nil =>
          have hx : p = x := by simpa using h
          subst hx
          exact containsSeg_of_starts _ _ (startsWithSeg_self _)
      | cons y t =>
          rcases List.mem_cons.mp h with hx | hmem
          · subst hx
            show containsSeg (p ++ sep ++ joinWith sep (y :: t)).data p.data = true
            rw [String.data_append, String.data_append, List.append_assoc]
            exact containsSeg_of_starts _ _ (startsWithSeg_append _ _)
          · have hc := ih hmem
            show containsSeg (x ++ sep ++ joinWith sep (y :: t)).data p.data = true
            rw [String.data_append, String.data_append, List.append_assoc]
            exact containsSeg_append_left _ _ _
              (containsSeg_append_left _ _ _ hc)

theorem countKey_append (k : String) (a b : List (String × String)) :
    countKey k (a ++ b) = countKey k a + countKey k b := by
  simp [countKey, List.countP_append]

theorem countKey_nil (k : String) : countKey k [] = 0 := rfl

theorem countKey_cons (k k' v : String) (ps : List (String × String)) :
    countKey k ((k', v) :: ps) = (if k' = k then 1 else 0) + countKey k ps := by
  by_cases h : k' = k <;> simp [countKey, List.countP_cons, h, Nat.add_comm]

theorem countKey_optParam (k k' : String) (o : Option String) :
    countKey k (optParam k' o) = if k' = k ∧ isGiven o = true then 1 else 0 := by
  cases o with
  | none => simp [optParam, isGiven, countKey]
  | some v =>
      by_cases hv : v = "" <;> by_cases hk : k' = k <;>
        simp [optParam, isGiven, countKey, hv, hk, List.countP_cons]

/-! ## Claims -/

/-- C5: the request operation never raises an uncaught fault: for every
endpoint, method and body it returns an envelope.  A successful
exchange returns the parsed body verbatim; a connection failure yields
`success: false` with error `Failed to connect to <service>: <reason>`
and a local timestamp; any other failure yields `Request failed:
<message>` with a local timestamp.  (Totality is the totality of
`make_request` over every `HttpOutcome`.) -/
theorem c5_make_request_envelopes :
    ∀ (endpoint method : String) (data : Option Json)
      (body : Json) (reason message now : String),
      make_request endpoint method data (.success body) now = body ∧
      make_request endpoint method data (.connectionFailure reason) now
        = .obj [("success", .bool false),
                ("error", .str ("Failed to connect to Jeannie API: " ++ reason)),
                ("timestamp", .str now)] ∧
      make_request endpoint method data (.otherFailure message) now
        = .obj [("success", .bool false),
                ("error", .str ("Request failed: " ++ message)),
                ("timestamp", .str now)] :=
  fun _ _ _ _ _ _ _ => ⟨rfl, rfl, rfl⟩

/-- C1 counterexample: for a successful remote envelope with
`data = ({x: 1})` and client version `0.9.0`, the version operation
returns data `({x: 1, roger: 0.9.0})`: the added key is `roger`, there
is no `client` key, so the returned data differs from the
`({x: 1, client: 0.9.0})` the claim requires. -/
theorem c1_counterexample :
    version_augment "0.9.0"
        [("success", Json.bool true), ("data", Json.obj [("x", Json.num 1)])]
      = some [("success", Json.bool true),
              ("data", Json.obj [("x", Json.num 1), ("roger", Json.str "0.9.0")])] ∧
    lookupField [("x", Json.num 1), ("roger", Json.str "0.9.0")] "client" = none ∧
    Json.obj [("x", Json.num 1), ("roger", Json.str "0.9.0")]
      ≠ Json.obj [("x", Json.num 1), ("client", Json.str "0.9.0")] := by
  refine ⟨rfl, rfl, ?_⟩
  simp

/-- C1 amended: when the remote envelope is successful (truthy
`success`) and carries a `data` object, the version operation merges
the client version into that object under the `roger` key (the client
program name), so data `({x: 1})` becomes `({x: 1, roger: <version>})`;
when `success` is falsy the envelope is returned unchanged. -/
theorem c1_version_roger_key :
    (∀ (v : String) (ds : List (String × Json)) (fields : Envelope),
        ((lookupField fields "success").getD .null).truthy = true →
        lookupField fields "data" = some (.obj ds) →
        version_augment v fields
          = some (setField fields "data" (.obj (setField ds "roger" (.str v))))) ∧
    (∀ (v : String) (fields : Envelope),
        ((lookupField fields "success").getD .null).truthy = false →
        version_augment v fields = some fields) ∧
    version_augment "0.9.0"
        [("success", Json.bool true), ("data", Json.obj [("x", Json.num 1)])]
      = some [("success", Json.bool true),
              ("data", Json.obj [("x", Json.num 1), ("roger", Json.str "0.9.0")])] := by
  refine ⟨?_, ?_, rfl⟩
  · intro v ds fields h1 h2
    simp [version_augment, h1, h2]
  · intro v fields h
    simp [version_augment, h]

/-- C1 witness: the amended theorem applied at a concrete successful
envelope with an empty data object and truthy numeric `success`. -/
theorem c1_witness :
    version_augment "1.2.3" [("success", Json.num 1), ("data", Json.obj [])]
      = some [("success", Json.num 1), ("data", Json.obj [("roger", Json.str "1.2.3")])] := by
  have h := c1_version_roger_key.1 "1.2.3" []
    [("success", Json.num 1), ("data", Json.obj [])] (by decide) rfl
  simpa [setField] using h

/-- C9: if the remote envelope has truthy `success` and a `data` key
whose value is not an object, the version operation hits an uncaught
fault (the item assignment raises `TypeError`), modelled as `none`
rather than a returned envelope. -/
theorem c9_version_nonobject_fault :
    ∀ (v : String) (fields : Envelope) (d : Json),
      ((lookupField fields "success").getD .null).truthy = true →
      lookupField fields "data" = some d →
      d.isObj = false →
      version_augment v fields = none := by
  intro v fields d h1 h2 h3
  cases d <;> simp_all [version_augment, Json.isObj]

/-- C9 witness: the theorem applied to a successful envelope whose
`data` is an array. -/
theorem c9_witness :
    version_augment "0.9.0" [("success", Json.bool true), ("data", Json.arr [])] = none :=
  c9_version_nonobject_fault "0.9.0" _ (Json.arr []) rfl rfl rfl

/-- C10: an optional string argument given as the empty string is
treated exactly like an absent one: `track_create` omits the `name`
field from the POST body, and `content_search`/`content_list` omit the
`type`, `creator` and `category` filters from the params dict. -/
theorem c10_empty_string_like_absent :
    ∀ (t : String) (p : Int) (q : String) (f : Bool)
      (ct cr cat : Option String) (l o : Int),
      track_create_data t (some "") p = track_create_data t none p ∧
      lookupField (track_create_data t (some "") p) "name" = none ∧
      content_search_params q f (some "") cr cat l
        = content_search_params q f none cr cat l ∧
      content_search_params q f ct (some "") cat l
        = content_search_params q f ct none cat l ∧
      content_search_params q f ct cr (some "") l
        = content_search_params q f ct cr none l ∧
      content_list_params (some "") cr cat l o
        = content_list_params none cr cat l o ∧
      content_list_params ct (some "") cat l o
        = content_list_params ct none cat l o ∧
      content_list_params ct cr (some "") l o
        = content_list_params ct cr none l o :=
  fun _ _ _ _ _ _ _ _ _ => ⟨rfl, rfl, rfl, rfl, rfl, rfl, rfl, rfl⟩

/-- C6: in the query strings built by `content_search` and
`content_list`, an omitted (or empty, hence falsy) filter contributes
no pair, a present (non-empty) filter contributes exactly one pair, the
`fuzzy` parameter is included exactly when true, and every pair appears
URL-encoded in the query string, which is exactly the `urlencode` of
the params dict. -/
theorem c6_optional_filters :
    ∀ (query : String) (fuzzy : Bool) (ct cr cat : Option String) (limit offset : Int),
      content_search_endpoint query fuzzy ct cr cat limit
        = "/api/content/search?" ++ urlencode (content_search_params query fuzzy ct cr cat limit) ∧
      content_list_endpoint ct cr cat limit offset
        = "/api/content?" ++ urlencode (content_list_params ct cr cat limit offset) ∧
      countKey "q" (content_search_params query fuzzy ct cr cat limit) = 1 ∧
      countKey "limit" (content_search_params query fuzzy ct cr cat limit) = 1 ∧
      countKey "fuzzy" (content_search_params query fuzzy ct cr cat limit)
        = (if fuzzy then 1 else 0) ∧
      countKey "type" (content_search_params query fuzzy ct cr cat limit)
        = (if isGiven ct then 1 else 0) ∧
      countKey "creator" (content_search_params query fuzzy ct cr cat limit)
        = (if isGiven cr then 1 else 0) ∧
      countKey "category" (content_search_params query fuzzy ct cr cat limit)
        = (if isGiven cat then 1 else 0) ∧
      countKey "limit" (content_list_params ct cr cat limit offset) = 1 ∧
      countKey "offset" (content_list_params ct cr cat limit offset) = 1 ∧
      countKey "fuzzy" (content_list_params ct cr cat limit offset) = 0 ∧
      countKey "type" (content_list_params ct cr cat limit offset)
        = (if isGiven ct then 1 else 0) ∧
      countKey "creator" (content_list_params ct cr cat limit offset)
        = (if isGiven cr then 1 else 0) ∧
      countKey "category" (content_list_params ct cr cat limit offset)
        = (if isGiven cat then 1 else 0) ∧
      (∀ k v, (k, v) ∈ content_search_params query fuzzy ct cr cat limit →
        containsText (urlencode (content_search_params query fuzzy ct cr cat limit))
          (quotePlus k ++ "=" ++ quotePlus v) = true) ∧
      (∀ k v, (k, v) ∈ content_list_params ct cr cat limit offset →
        containsText (urlencode (content_list_params ct cr cat limit offset))
          (quotePlus k ++ "=" ++ quotePlus v) = true) := by
  intro query fuzzy ct cr cat limit offset
  have hrender : ∀ (k v : String) (ps : List (String × String)), (k, v) ∈ ps →
      containsText (urlencode ps) (quotePlus k ++ "=" ++ quotePlus v) = true := by
    intro k v ps hmem
    have hmap : quotePlus k ++ "=" ++ quotePlus v
        ∈ ps.map (fun p => quotePlus p.1 ++ "=" ++ quotePlus p.2) :=
      List.mem_map_of_mem _ hmem
    exact mem_joinWith_contains "&" _ _ hmap
  refine ⟨rfl, rfl, ?_, ?_, ?_, ?_, ?_, ?_, ?_, ?_, ?_, ?_, ?_, ?_,
    fun k v h => hrender k v _ h, fun k v h => hrender k v _ h⟩ <;>
  cases fuzzy <;>
  simp +decide [content_search_params, content_list_params, countKey_append,
    countKey_optParam, countKey_cons, countKey_nil]

/-- C6 witness: the theorem instantiated at a concrete search with a
space in the query, a fuzzy flag, a present creator filter and omitted
type and category filters. -/
theorem c6_witness :
    countKey "type" (content_search_params "hello world" true none (some "Bob") none 20) = 0 ∧
    countKey "creator" (content_search_params "hello world" true none (some "Bob") none 20) = 1 ∧
    containsText (urlencode (content_search_params "hello world" true none (some "Bob") none 20))
      (quotePlus "q" ++ "=" ++ quotePlus "hello world") = true := by
  have h := c6_optional_filters "hello world" true none (some "Bob") none 20 0
  refine ⟨?_, ?_, ?_⟩
  · simpa using h.2.2.2.2.2.1
  · simpa using h.2.2.2.2.2.2.1
  · exact h.2.2.2.2.2.2.2.2.2.2.2.2.2.2.1 "q" "hello world" (by decide)

/-- C7: volume normalization before the track volume request: a value
above 1 is divided by 100 and the result is clamped to the unit
interval; inputs 75, 0.5, 150 and -10 are sent as 0.75, 0.5, 1 and 0
respectively, and the request body carries the normalized value. -/
theorem c7_volume_normalization :
    normalize_volume 75 = 3/4 ∧
    normalize_volume (1/2) = 1/2 ∧
    normalize_volume 150 = 1 ∧
    normalize_volume (-10) = 0 ∧
    (∀ v : ℚ, 1 < v → normalize_volume v = max 0 (min 1 (v / 100))) ∧
    (∀ v : ℚ, v ≤ 1 → normalize_volume v = max 0 (min 1 v)) ∧
    (∀ v : ℚ, 0 ≤ normalize_volume v ∧ normalize_volume v ≤ 1) ∧
    track_volume_data (normalize_volume 75) = [("volume", Json.num (3/4))] := by
  have h75 : normalize_volume 75 = 3/4 := by
    norm_num [normalize_volume, min_def, max_def]
  refine ⟨h75, ?_, ?_, ?_, ?_, ?_, ?_, ?_⟩
  · norm_num [normalize_volume, min_def, max_def]
  · norm_num [normalize_volume, min_def, max_def]
  · norm_num [normalize_volume, min_def, max_def]
  · intro v h
    simp [normalize_volume, h]
  · intro v h
    simp [normalize_volume, not_lt.mpr h]
  · intro v
    exact ⟨le_max_left 0 _, max_le (by norm_num) (min_le_left 1 _)⟩
  · rw [track_volume_data, h75]

/-- C7 witness: the percentage branch of the theorem applied at input
200, and the clamp branch at input 0.3. -/
theorem c7_witness :
    normalize_volume 200 = max 0 (min 1 (200 / 100)) ∧
    normalize_volume (3/10) = max 0 (min 1 (3/10)) :=
  ⟨(c7_volume_normalization.2.2.2.2.1) 200 (by norm_num),
   (c7_volume_normalization.2.2.2.2.2.1) (3/10) (by norm_num)⟩

/-- C8: pan normalization and labelling: the sent value is the input
clamped to `[-1, 1]`; the confirmation label is `center` at 0,
`<p>% left` for negative values and `<p>% right` for positive ones;
inputs -2, 0, 0.5 and -0.3 give sent value -1 and labels `center`,
`50% right` and `30% left`; the request body carries the clamped
value. -/
theorem c8_pan_normalization :
    normalize_pan (-2) = -1 ∧
    pan_label 0 = "center" ∧
    pan_label (1/2) = "50% right" ∧
    pan_label (-3/10) = "30% left" ∧
    (∀ v : ℚ, v ≤ -1 → normalize_pan v = -1) ∧
    (∀ v : ℚ, 1 ≤ v → normalize_pan v = 1) ∧
    (∀ v : ℚ, -1 ≤ v → v ≤ 1 → normalize_pan v = v) ∧
    (∀ p : ℚ, p < 0 → pan_label p = toString (pyInt (-p * 100)) ++ "% left") ∧
    (∀ p : ℚ, 0 < p → pan_label p = toString (pyInt (p * 100)) ++ "% right") ∧
    track_pan_data (normalize_pan (-2)) = [("pan", Json.num (-1))] := by
  have hneg2 : normalize_pan (-2) = -1 := by
    norm_num [normalize_pan, min_def, max_def]
  refine ⟨hneg2, ?_, ?_, ?_, ?_, ?_, ?_, ?_, ?_, ?_⟩
  · norm_num [pan_label]
  · norm_num [pan_label, pyInt]
    rfl
  · norm_num [pan_label, pyInt, abs_of_neg]
    rfl
  · intro v h
    rw [normalize_pan, min_eq_right (by linarith : v ≤ 1), max_eq_left h]
  · intro v h
    rw [normalize_pan, min_eq_left h, max_eq_right (by norm_num : (-1:ℚ) ≤ 1)]
  · intro v h1 h2
    rw [normalize_pan, min_eq_right h2, max_eq_right h1]
  · intro p h
    rw [pan_label, if_neg (ne_of_lt h), if_pos h, abs_of_neg h]
  · intro p h
    rw [pan_label, if_neg (ne_of_gt h), if_neg (not_lt.mpr (le_of_lt h))]
  · rw [track_pan_data, hneg2]

/-- C8 witness: the clamp branch applied at input 3 and the negative
label branch applied at input -0.25. -/
theorem c8_witness :
    normalize_pan 3 = 1 ∧
    pan_label (-1/4) = toString (pyInt (-(-1/4) * 100)) ++ "% left" :=
  ⟨(c8_pan_normalization.2.2.2.2.2.1) 3 (by norm_num),
   (c8_pan_normalization.2.2.2.2.2.2.2.1) (-1/4) (by norm_num)⟩

/-- C2 counterexample: `hello` in raw mode, against an envelope with
`success: false` and error `boom`, pretty-prints the envelope to
standard output, writes nothing to the error stream, and exits 0 — not
1 as the claim requires for every output mode. -/
theorem c2_counterexample :
    (present Cmd.hello [("success", Json.bool false), ("error", Json.str "boom")] true).map
        Output.exitCode = some 0 ∧
    (present Cmd.hello [("success", Json.bool false), ("error", Json.str "boom")] true).map
        Output.exitCode ≠ some 1 ∧
    (present Cmd.hello [("success", Json.bool false), ("error", Json.str "boom")] true).map
        Output.stderr = some "" := by
  refine ⟨rfl, ?_, rfl⟩
  decide

/-- C2 amended: for every dispatched command, when the envelope has a
falsy `success` the presentation falls through to `print_response` — in
formatted mode that prints the error marker to the error stream and
exits 1, while in raw mode it pretty-prints the full envelope to
standard output and the process exits 0; and whenever the envelope
succeeds and the presentation completes, the process exits 0. -/
theorem c2_failure_exit :
    ∀ (cmd : Cmd) (env : Envelope) (raw : Bool),
      (envSuccess env = false →
        present cmd env raw = some (print_response env raw) ∧
        print_response env false
          = { stdout := "",
              stderr := "✗ Error: "
                ++ pyStr ((lookupField env "error").getD (.str "Unknown error")) ++ "\n",
              exitCode := 1 } ∧
        print_response env true
          = { stdout := dumps 0 (.obj env) ++ "\n", stderr := "", exitCode := 0 }) ∧
      (∀ out : Output, envSuccess env = true →
        present cmd env raw = some out → out.exitCode = 0) := by
  intro cmd env raw
  constructor
  · intro h
    refine ⟨?_, ?_, ?_⟩
    · cases cmd <;> simp [present, h]
    · simp [print_response, envSuccess] at h ⊢
      exact h
    · simp [print_response]
  · intro out h1 h2
    have hpr : ∀ b, (print_response env b).exitCode = 0 := by
      intro b
      cases b <;> simp [print_response, h1]
    cases cmd <;>
      simp only [present, h1, Bool.true_and] at h2 <;>
      (repeat' split at h2) <;>
      first
        | exact Option.noConfusion h2
        | (injection h2 with h3; subst h3; first | rfl | exact hpr _)

/-- C2 witness: the amended theorem applied to `hello` with a failing
envelope in formatted mode yields exit status 1 with the error on the
error stream, and applied to `hello` with a successful envelope in
formatted mode yields exit status 0. -/
theorem c2_witness :
    (present Cmd.hello [("success", Json.bool false), ("error", Json.str "boom")] false).map
        Output.exitCode = some 1 ∧
    (present Cmd.hello [("success", Json.bool false), ("error", Json.str "boom")] false).map
        Output.stderr = some "✗ Error: boom\n" ∧
    (print_response [("success", Json.bool true)] false).exitCode = 0 := by
  have h := (c2_failure_exit Cmd.hello
    [("success", Json.bool false), ("error", Json.str "boom")] false).1 rfl
  have hs := (c2_failure_exit Cmd.hello [("success", Json.bool true)] false).2
    (print_response [("success", Json.bool true)] false) rfl rfl
  rw [h.1, h.2.1]
  exact ⟨rfl, rfl, hs⟩

set_option maxRecDepth 8000 in
/-- C3 counterexample: the `content types` listing, given 51 entries
`c0..c50`, prints all 51 of them (the 51st, `c50`, appears) and no
truncation note (no `more` anywhere in the output), contradicting the
claim that the type listing truncates lists longer than 50 entries. -/
theorem c3_counterexample :
    (present Cmd.contentTypes
        [("success", Json.bool true),
         ("data", Json.arr ((List.range 51).map (fun i => Json.str ("c" ++ toString i))))]
        false).map Output.stdout
      = some ("✓ Available content types:\n\n"
          ++ String.join ((List.range 51).map (fun i => "  - c" ++ toString i ++ "\n"))) ∧
    containsText ("✓ Available content types:\n\n"
        ++ String.join ((List.range 51).map (fun i => "  - c" ++ toString i ++ "\n")))
      "more" = false ∧
    containsText ("✓ Available content types:\n\n"
        ++ String.join ((List.range 51).map (fun i => "  - c" ++ toString i ++ "\n")))
      "c50" = true := by
  refine ⟨?_, ?_, ?_⟩ <;> rfl

set_option maxRecDepth 8000 in
/-- C3 amended: in formatted mode, the `content creators` and `content
categories` listings print one item per line, keep only the first 50
items, and end with an `... and N more` note when more than 50 items
were returned; the `content types` listing prints every item with no
truncation. -/
theorem c3_listing_truncation :
    ∀ xs : List String,
      present Cmd.contentCreators
          [("success", Json.bool true), ("data", Json.arr (xs.map Json.str))] false
        = some (outLines ("✓ Available creators (" ++ toString xs.length ++ "):\n\n"
            ++ String.join ((xs.take 50).map (fun c => "  - " ++ c ++ "\n"))
            ++ (if xs.length > 50 then
                  "\n  ... and " ++ toString (xs.length - 50) ++ " more\n"
                else ""))) ∧
      present Cmd.contentCategories
          [("success", Json.bool true), ("data", Json.arr (xs.map Json.str))] false
        = some (outLines ("✓ Available categories (" ++ toString xs.length ++ "):\n\n"
            ++ String.join ((xs.take 50).map (fun c => "  - " ++ c ++ "\n"))
            ++ (if xs.length > 50 then
                  "\n  ... and " ++ toString (xs.length - 50) ++ " more\n"
                else ""))) ∧
      present Cmd.contentTypes
          [("success", Json.bool true), ("data", Json.arr (xs.map Json.str))] false
        = some (outLines ("✓ Available content types:\n\n"
            ++ String.join (xs.map (fun c => "  - " ++ c ++ "\n")))) := by
  intro xs
  refine ⟨?_, ?_, ?_⟩ <;>
    simp [present, envSuccess, lookupField, Json.truthy, List.map_take,
      List.map_map, Function.comp_def, pyStr_str]

/-- C4: the failing input for the raw-mode claim: `content search` with
`--raw` against a successful envelope with data still produces the
bespoke search rendering and ignores the flag — the output is identical
to formatted mode and is the search summary line, not the JSON dump of
the envelope which the claim (and the flag's own help text) require. -/
theorem c4_raw_ignored_on_bespoke_success :
    present Cmd.contentSearch
        [("success", Json.bool true),
         ("data", Json.obj [("total", Json.num 1), ("query", Json.str "foo"),
                            ("results", Json.arr [])])] true
      = present Cmd.contentSearch
        [("success", Json.bool true),
         ("data", Json.obj [("total", Json.num 1), ("query", Json.str "foo"),
                            ("results", Json.arr [])])] false ∧
    (present Cmd.contentSearch
        [("success", Json.bool true),
         ("data", Json.obj [("total", Json.num 1), ("query", Json.str "foo"),
                            ("results", Json.arr [])])] true).map Output.stdout
      = some "✓ Found 1 results for \x27foo\x27\n\n" ∧
    "✓ Found 1 results for \x27foo\x27\n\n"
      ≠ dumps 0 (Json.obj
          [("success", Json.bool true),
           ("data", Json.obj [("total", Json.num 1), ("query", Json.str "foo"),
                              ("results", Json.arr [])])]) ++ "\n" := by
  refine ⟨rfl, rfl, ?_⟩
  decide

end Roger
